import Mathlib

/-!
Shallow embedding of the Loan Accounting & Vault Ledger engine of the
FletXr-Responsive repository.

The arithmetic of the JavaScript sources is idealized over exact rationals
(`ℚ`); database `DECIMAL` columns, JS numbers and their operations are
translated to `ℚ` operations.  The embedded functions follow, statement by
statement, the JavaScript of `src/api/src/services/borrowers_service.js`
(`calculateLoanDetails`), the validation middleware
`src/middleware/business_validation_middleware.js`
(`validateLoanCalculation`), and the SQL schema/trigger of
`src/api/Loan-Management.session.sql`.  Components of the engine that the
specification describes but whose implementation is absent from the sources
(the repayment allocator and the vault posting service) are modelled from
the specification text and are marked as such in their doc comments.
-/

namespace LoanEngine

/-- A loan product row, as selected by `getProductById` in
`borrowers_service.js` from the `loan_products` table (columns used by
`calculateLoanDetails`). -/
structure LoanProduct where
  id : String
  name : String
  interest_type : String
  interest_rate : ℚ
  max_amount : ℚ
  default_term_days : Int
  grace_days : Int
  penalty_type : String
  penalty_value : ℚ
  is_active : Bool
deriving DecidableEq

/-- The result object returned by `calculateLoanDetails`
(`borrowers_service.js`, the object literal at the end of the method). -/
structure LoanDetails where
  product_id : String
  product_name : String
  principal_amount : ℚ
  interest_rate : ℚ
  interest_type : String
  term_days : Int
  interest_amount : ℚ
  total_due_amount : ℚ
  grace_days : Int
  penalty_type : String
  penalty_value : ℚ
deriving DecidableEq

/-- Idealization of `Number.prototype.toFixed(2)` over exact rationals: the
nearest multiple of `1/100`, a tie going to the larger candidate
(ECMA-262 picks the larger `n` when two are equally close), i.e.
`⌊100·q + 1/2⌋ / 100`. -/
def toFixed2 (q : ℚ) : ℚ := ((⌊q * 100 + 1 / 2⌋ : ℤ) : ℚ) / 100

/-- The JS fallback `termDays || product.default_term_days` in
`calculateLoanDetails`: `null`/`undefined` (here `none`) and the falsy
number `0` select the product default, any other number is kept. -/
def loanTermDaysOf : Option Int → Int → Int
  | none, dflt => dflt
  | some t, dflt => if t = 0 then dflt else t

/-- The service method `calculateLoanDetails(productId, principalAmount, termDays)` from
`borrowers_service.js`.  The `getProductById` lookup result is passed in as
an `Option LoanProduct`; thrown errors become `Except.error` with the
corresponding message. -/
def calculateLoanDetails (lookup : Option LoanProduct) (principalAmount : ℚ)
    (termDays : Option Int) : Except String LoanDetails :=
  match lookup with
  | none => .error "Product not found"
  | some product =>
    if product.is_active = false then
      .error "Product is not active"
    else if product.max_amount < principalAmount then
      .error "Amount exceeds maximum limit"
    else
      let loanTermDays := loanTermDaysOf termDays product.default_term_days
      let interestAmount : ℚ :=
        if product.interest_type = "flat_monthly" then
          principalAmount * product.interest_rate * ((loanTermDays : ℚ) / 30)
        else if product.interest_type = "reducing_balance" then
          principalAmount * (product.interest_rate / 365) * (loanTermDays : ℚ)
        else 0
      let totalDueAmount := principalAmount + interestAmount
      .ok
        { product_id := product.id
          product_name := product.name
          principal_amount := principalAmount
          interest_rate := product.interest_rate
          interest_type := product.interest_type
          term_days := loanTermDays
          interest_amount := toFixed2 interestAmount
          total_due_amount := toFixed2 totalDueAmount
          grace_days := product.grace_days
          penalty_type := product.penalty_type
          penalty_value := product.penalty_value }

/-- The `principal_amount` rule of `validateLoanCalculation` in
`business_validation_middleware.js`: a float between `1.00` and
`999999999.99` with at most two decimal places. -/
def validPrincipalAmount (p : ℚ) : Bool :=
  decide (1 ≤ p) && decide (p ≤ 99999999999 / 100) && ((p * 100).den == 1)

/-- The `term_days` rule of `validateLoanCalculation`: the field is
optional with `checkFalsy: true` (absent or `0` is skipped), otherwise it
must be an integer between 1 and 3650. -/
def validTermField : Option Int → Bool
  | none => true
  | some t => if t = 0 then true else decide (1 ≤ t) && decide (t ≤ 3650)

/-- `validateLoanCalculation` middleware
(`business_validation_middleware.js`): both field rules must pass. -/
def validateLoanCalculation (p : ℚ) (t : Option Int) : Bool :=
  validPrincipalAmount p && validTermField t

/-- The `POST /api/loan-products/:id/calculate` pipeline: the
`validateLoanCalculation` middleware runs first and rejects invalid
requests; otherwise the controller calls the service
(`borrower_categories_controller.js`, `calculateLoanDetails`). -/
def calculateLoanDetailsRequest (lookup : Option LoanProduct) (p : ℚ)
    (t : Option Int) : Except String LoanDetails :=
  if validateLoanCalculation p t then calculateLoanDetails lookup p t
  else .error "Validation failed"

/-- Whether a service call succeeded. -/
def isOkE : Except String LoanDetails → Bool
  | .ok _ => true
  | .error _ => false

/-- The `interest_amount` of a successful result (0 on error). -/
def interestOf : Except String LoanDetails → ℚ
  | .ok r => r.interest_amount
  | .error _ => 0

/-- The `total_due_amount` of a successful result (0 on error). -/
def totalDueOf : Except String LoanDetails → ℚ
  | .ok r => r.total_due_amount
  | .error _ => 0

/-- The `principal_amount` of a successful result (0 on error). -/
def principalOf : Except String LoanDetails → ℚ
  | .ok r => r.principal_amount
  | .error _ => 0

/-- The `term_days` of a successful result (0 on error). -/
def termOf : Except String LoanDetails → Int
  | .ok r => r.term_days
  | .error _ => 0

/-- A rational carries at most two decimal places: one hundred times it is
an integer. -/
def TwoDecimals (q : ℚ) : Prop := (q * 100).den = 1

instance (q : ℚ) : Decidable (TwoDecimals q) := by
  unfold TwoDecimals; infer_instance

/-- The interest expression selected by the `interest_type` dispatch inside
`calculateLoanDetails` (the `interestAmount` local, before rounding), as a
function of the resolved term. -/
def rawInterest (product : LoanProduct) (principalAmount : ℚ)
    (loanTermDays : Int) : ℚ :=
  if product.interest_type = "flat_monthly" then
    principalAmount * product.interest_rate * ((loanTermDays : ℚ) / 30)
  else if product.interest_type = "reducing_balance" then
    principalAmount * (product.interest_rate / 365) * (loanTermDays : ℚ)
  else 0

/-- The flat-monthly product of the specification's first example scenario:
rate 0.25, default term 60 days. -/
def prodFlatStd : LoanProduct :=
  { id := "prod-flat-std"
    name := "Standard Flat"
    interest_type := "flat_monthly"
    interest_rate := 1 / 4
    max_amount := 100000
    default_term_days := 60
    grace_days := 3
    penalty_type := "fixed"
    penalty_value := 50
    is_active := true }

/-- A reducing-balance product: rate 0.365 so that the daily rate is
exactly 0.001, default term 100 days. -/
def prodReduce : LoanProduct :=
  { id := "prod-reduce"
    name := "Reducing"
    interest_type := "reducing_balance"
    interest_rate := 73 / 200
    max_amount := 100000
    default_term_days := 100
    grace_days := 3
    penalty_type := "percentage"
    penalty_value := 1 / 10
    is_active := true }

/-- A product row whose `interest_type` is neither `flat_monthly` nor
`reducing_balance`. -/
def prodOther : LoanProduct :=
  { id := "prod-other"
    name := "Other"
    interest_type := "balloon"
    interest_rate := 1 / 10
    max_amount := 100000
    default_term_days := 30
    grace_days := 3
    penalty_type := "fixed"
    penalty_value := 50
    is_active := true }

/-- A flat-monthly product with rate 0.30, used for the half-cent rounding
analysis: principal 128.35 over 30 days gives exact interest 38.505. -/
def prodHalfCent : LoanProduct :=
  { id := "prod-half-cent"
    name := "HalfCent"
    interest_type := "flat_monthly"
    interest_rate := 3 / 10
    max_amount := 100000
    default_term_days := 30
    grace_days := 3
    penalty_type := "fixed"
    penalty_value := 50
    is_active := true }

/-! ### RepaymentAllocator (spec §4.2) -/

/-- Outstanding balances per bucket, the input of the repayment allocator
(spec §4.2). -/
structure Outstanding where
  penalty : ℚ
  interest : ℚ
  principal : ℚ
deriving DecidableEq

/-- The waterfall split computed by the repayment allocator, matching the
allocation columns of the `repayments` table
(`Loan-Management.session.sql`). -/
structure Allocation where
  allocPenalty : ℚ
  allocInterest : ℚ
  allocPrincipal : ℚ
  overpayment : ℚ
deriving DecidableEq

/-- Modelled from the spec: no RepaymentAllocator implementation is present
under the sources (only the `repayments` table schema records the
allocation columns), so `allocate` follows spec §4.2 word by word:
`amountPaid ≤ 0` is rejected as a ValidationError (§4.2 rejects
`amountPaid == 0`, §7 classifies `amount_paid ≤ 0` as ValidationError),
negative outstanding buckets are treated as zero, each bucket absorbs
`min(remainingPayment, bucketOutstanding)` in the fixed order penalty,
interest, principal, and the excess is returned as `overpayment`. -/
def allocate (outstanding : Outstanding) (amountPaid : ℚ) :
    Except String Allocation :=
  if amountPaid ≤ 0 then .error "ValidationError"
  else
    let penaltyDue := max outstanding.penalty 0
    let interestDue := max outstanding.interest 0
    let principalDue := max outstanding.principal 0
    let allocPenalty := min amountPaid penaltyDue
    let afterPenalty := amountPaid - allocPenalty
    let allocInterest := min afterPenalty interestDue
    let afterInterest := afterPenalty - allocInterest
    let allocPrincipal := min afterInterest principalDue
    let overpayment := afterInterest - allocPrincipal
    .ok
      { allocPenalty := allocPenalty
        allocInterest := allocInterest
        allocPrincipal := allocPrincipal
        overpayment := overpayment }

/-- The spec's example allocation: outstanding {50, 200, 800}, payment 300
splits into {50, 200, 50, 0}. -/
def allocEx : Allocation :=
  { allocPenalty := 50
    allocInterest := 200
    allocPrincipal := 50
    overpayment := 0 }

/-! ### VaultLedger (spec §4.3, SQL schema and trigger) -/

/-- The `entry_type` column of `vault_transaction_entries`:
`CHECK (entry_type IN ('debit', 'credit'))`. -/
inductive EntryType where
  | debit
  | credit
deriving DecidableEq

/-- A `vault_transaction_entries` row as it affects one account:
`entry_type`, `amount`, `balance_after` (`Loan-Management.session.sql`). -/
structure VEntry where
  entry_type : EntryType
  amount : ℚ
  balance_after : ℚ
deriving DecidableEq

/-- The signed effect of an entry on its account balance, in the business
convention of spec §4.3: credit = money entering the named account,
debit = money leaving it. -/
def signedValue (t : EntryType) (amount : ℚ) : ℚ :=
  match t with
  | .credit => amount
  | .debit => -amount

/-- The signed amount of a recorded entry. -/
def signedAmount (e : VEntry) : ℚ := signedValue e.entry_type e.amount

/-- A `vault_accounts` row restricted to its balance and its entry history
(`current_balance DECIMAL(15,2) DEFAULT 0`). -/
structure VaultAccount where
  current_balance : ℚ
  entries : List VEntry
deriving DecidableEq

/-- Inserting one entry against an account.  The `balance_after` value of
the new row is the account's prior balance adjusted by the entry —
Modelled from the spec (§4.3), the posting service being absent from the
sources — and the `update_vault_balance` trigger of
`Loan-Management.session.sql` then sets the account's `current_balance` to
the inserted row's `balance_after`. -/
def insertEntry (acct : VaultAccount) (t : EntryType) (amount : ℚ) :
    VaultAccount :=
  let balanceAfter := acct.current_balance + signedValue t amount
  { current_balance := balanceAfter
    entries := acct.entries ++
      [{ entry_type := t, amount := amount, balance_after := balanceAfter }] }

/-- A fresh `vault_accounts` row: `current_balance DECIMAL(15,2) DEFAULT 0`
and no entries. -/
def initialVaultAccount : VaultAccount :=
  { current_balance := 0, entries := [] }

/-- A sequence of entry creations against one account. -/
def applyEntries (acct : VaultAccount) (ops : List (EntryType × ℚ)) :
    VaultAccount :=
  ops.foldl (fun a op => insertEntry a op.1 op.2) acct

/-- Replaying an entry history in creation order: the sum of the signed
amounts starting from an empty account. -/
def replayBalance (entries : List VEntry) : ℚ :=
  entries.foldl (fun b e => b + signedAmount e) 0

/-- One entry of a posting request: account reference, side, amount. -/
structure EntryInput where
  vault_account_id : Nat
  entry_type : EntryType
  amount : ℚ
deriving DecidableEq

/-- A `vault_transactions` row together with its
`vault_transaction_entries` (`Loan-Management.session.sql`). -/
structure VaultTxn where
  transaction_type : String
  entries : List EntryInput
deriving DecidableEq

/-- The total amount on one side (debit or credit) of an entry list. -/
def sumSide (t : EntryType) (entries : List EntryInput) : ℚ :=
  (entries.map fun e => if e.entry_type = t then e.amount else 0).sum

/-- Modelled from the spec: the `VaultLedger.post` operation of §4.3, whose
implementation is absent from the sources (only the schema is present).
Precondition: `entries` is non-empty, all amounts strictly positive, and
Σ debit == Σ credit; any violation is a ConstraintViolation and the whole
posting is rejected, nothing partially applied. -/
def postChecks (entries : List EntryInput) : Bool :=
  !entries.isEmpty && (entries.all fun e => decide (0 < e.amount)) &&
    decide (sumSide .debit entries = sumSide .credit entries)

/-- Posting: all three preconditions must hold, otherwise the whole
posting is rejected. -/
def post (ledger : List VaultTxn) (txnType : String)
    (entries : List EntryInput) : Except String (List VaultTxn) :=
  if postChecks entries then
    .ok (ledger ++ [{ transaction_type := txnType, entries := entries }])
  else .error "ConstraintViolation"

/-- A posting attempt as seen by the ledger state: a rejected posting
leaves the ledger unchanged (spec §5, atomicity). -/
def postRun (ledger : List VaultTxn) (txnType : String)
    (entries : List EntryInput) : List VaultTxn :=
  match post ledger txnType entries with
  | .ok l => l
  | .error _ => ledger

/-- Running a sequence of posting attempts from an empty ledger. -/
def runPosts (inputs : List (String × List EntryInput)) : List VaultTxn :=
  inputs.foldl (fun l i => postRun l i.1 i.2) []

/-- Evaluation helper for `toFixed2`: bracketing `100·q + 1/2` between `n`
and `n + 1` pins the floor. -/
lemma toFixed2_eval (q : ℚ) (n : ℤ) (h1 : (n : ℚ) ≤ q * 100 + 1 / 2)
    (h2 : q * 100 + 1 / 2 < (n : ℚ) + 1) : toFixed2 q = (n : ℚ) / 100 := by
  unfold toFixed2
  rw [show ⌊q * 100 + 1 / 2⌋ = n from Int.floor_eq_iff.mpr ⟨h1, h2⟩]

/-- Rounding a whole number of cents is the identity. -/
lemma toFixed2_cents (n : ℤ) : toFixed2 ((n : ℚ) / 100) = (n : ℚ) / 100 := by
  rw [toFixed2_eval ((n : ℚ) / 100) n]
  · rw [div_mul_cancel₀]
    · linarith
    · norm_num
  · rw [div_mul_cancel₀]
    · linarith
    · norm_num

/-- Adding a whole number of cents commutes with rounding to cents. -/
lemma toFixed2_add_cents (n : ℤ) (i : ℚ) :
    toFixed2 ((n : ℚ) / 100 + i) = (n : ℚ) / 100 + toFixed2 i := by
  unfold toFixed2
  have h : ((n : ℚ) / 100 + i) * 100 + 1 / 2 = (n : ℚ) + (i * 100 + 1 / 2) := by
    ring
  rw [h, Int.floor_int_add]
  push_cast
  ring

/-- A rational with at most two decimal places is a whole number of cents. -/
lemma twoDecimals_rep (p : ℚ) (h : TwoDecimals p) :
    p = (((p * 100).num : ℚ)) / 100 := by
  have h2 : ((p * 100).num : ℚ) = p * 100 := (Rat.den_eq_one_iff _).mp h
  rw [h2]
  ring

/-- The result of `toFixed2` always has at most two decimal places. -/
lemma twoDecimals_toFixed2 (q : ℚ) : TwoDecimals (toFixed2 q) := by
  unfold TwoDecimals toFixed2
  rw [div_mul_cancel₀]
  · exact Rat.den_intCast _
  · norm_num

/-- A whole number of cents has at most two decimal places. -/
lemma twoDecimals_div_hundred (n : ℤ) : TwoDecimals ((n : ℚ) / 100) := by
  unfold TwoDecimals
  rw [div_mul_cancel₀ _ (by norm_num : (100 : ℚ) ≠ 0)]
  exact Rat.den_intCast n

/-- The successful path of `calculateLoanDetails`: with the product active
and the principal within `max_amount`, it returns the result object with
the resolved term and the rounded amounts. -/
lemma calculateLoanDetails_ok (product : LoanProduct) (p : ℚ)
    (t : Option Int) (hA : product.is_active = true)
    (hM : p ≤ product.max_amount) :
    calculateLoanDetails (some product) p t =
      .ok
        { product_id := product.id
          product_name := product.name
          principal_amount := p
          interest_rate := product.interest_rate
          interest_type := product.interest_type
          term_days := loanTermDaysOf t product.default_term_days
          interest_amount :=
            toFixed2
              (rawInterest product p (loanTermDaysOf t product.default_term_days))
          total_due_amount :=
            toFixed2
              (p + rawInterest product p (loanTermDaysOf t product.default_term_days))
          grace_days := product.grace_days
          penalty_type := product.penalty_type
          penalty_value := product.penalty_value } := by
  unfold calculateLoanDetails rawInterest
  dsimp only
  rw [hA, if_neg (by simp), if_neg (not_lt.mpr hM)]

/-- A successful `calculateLoanDetails` call implies the product was active
and the principal within `max_amount`. -/
lemma calculateLoanDetails_ok_inv (product : LoanProduct) (p : ℚ)
    (t : Option Int)
    (h : isOkE (calculateLoanDetails (some product) p t) = true) :
    product.is_active = true ∧ p ≤ product.max_amount := by
  unfold calculateLoanDetails at h
  dsimp only at h
  cases hA : product.is_active with
  | false =>
    rw [hA, if_pos rfl] at h
    simp [isOkE] at h
  | true =>
    rw [hA] at h
    by_cases hM : product.max_amount < p
    · rw [if_neg (by simp), if_pos hM] at h
      simp [isOkE] at h
    · exact ⟨rfl, not_lt.mp hM⟩

/-- A successful request implies the validator passed and the service call
succeeded. -/
lemma request_ok_inv (lookup : Option LoanProduct) (p : ℚ) (t : Option Int)
    (h : isOkE (calculateLoanDetailsRequest lookup p t) = true) :
    validateLoanCalculation p t = true ∧
      calculateLoanDetailsRequest lookup p t = calculateLoanDetails lookup p t := by
  unfold calculateLoanDetailsRequest at h ⊢
  cases hv : validateLoanCalculation p t with
  | false =>
    rw [hv] at h
    simp [isOkE] at h
  | true => exact ⟨rfl, by simp⟩

/-- A passing validator bounds the principal and pins it to two decimal
places. -/
lemma validate_true_principal (p : ℚ) (t : Option Int)
    (hv : validateLoanCalculation p t = true) :
    1 ≤ p ∧ p ≤ 99999999999 / 100 ∧ TwoDecimals p := by
  unfold validateLoanCalculation validPrincipalAmount at hv
  simp only [Bool.and_eq_true, decide_eq_true_eq, beq_iff_eq] at hv
  exact ⟨hv.1.1.1, hv.1.1.2, hv.1.2⟩

/-! ### Claim theorems -/

/-- C1 (amended): for every active `flat_monthly` product and principal not
exceeding `max_amount`, `calculateLoanDetails` succeeds and returns
`interest_amount` equal to `principal × interest_rate × (termDays / 30)`
rounded to two decimal places, `termDays` being the caller-supplied term or
else the product default, and `total_due_amount` the rounded sum of
principal and unrounded interest. -/
theorem flat_monthly_interest_rounded (product : LoanProduct) (p : ℚ)
    (t : Option Int) (hty : product.interest_type = "flat_monthly")
    (hA : product.is_active = true) (hM : p ≤ product.max_amount) :
    isOkE (calculateLoanDetails (some product) p t) = true ∧
    interestOf (calculateLoanDetails (some product) p t) =
      toFixed2 (p * product.interest_rate *
        ((loanTermDaysOf t product.default_term_days : ℚ) / 30)) ∧
    totalDueOf (calculateLoanDetails (some product) p t) =
      toFixed2 (p + p * product.interest_rate *
        ((loanTermDaysOf t product.default_term_days : ℚ) / 30)) := by
  rw [calculateLoanDetails_ok product p t hA hM]
  unfold rawInterest
  rw [if_pos hty]
  exact ⟨rfl, rfl, rfl⟩

/-- C1 witness: the spec's example — flat_monthly, rate 0.25, default term
60 days, principal 1000, no term override — yields interest 500.00 and
total due 1500.00. -/
theorem flat_monthly_interest_rounded_witness :
    isOkE (calculateLoanDetails (some prodFlatStd) 1000 none) = true ∧
    interestOf (calculateLoanDetails (some prodFlatStd) 1000 none) = 500 ∧
    totalDueOf (calculateLoanDetails (some prodFlatStd) 1000 none) = 1500 := by
  have h := flat_monthly_interest_rounded prodFlatStd 1000 none rfl rfl
    (by norm_num [prodFlatStd])
  refine ⟨h.1, ?_, ?_⟩
  · rw [h.2.1,
      show 1000 * prodFlatStd.interest_rate *
          ((loanTermDaysOf none prodFlatStd.default_term_days : ℚ) / 30) =
        ((50000 : ℤ) : ℚ) / 100 by norm_num [prodFlatStd, loanTermDaysOf],
      toFixed2_cents]
    norm_num
  · rw [h.2.2,
      show 1000 + 1000 * prodFlatStd.interest_rate *
          ((loanTermDaysOf none prodFlatStd.default_term_days : ℚ) / 30) =
        ((150000 : ℤ) : ℚ) / 100 by norm_num [prodFlatStd, loanTermDaysOf],
      toFixed2_cents]
    norm_num

/-- C1 counterexample to the literal claim: with rate 0.25 and term 7 days,
the exact formula value for principal 100 is 35/6 = 5.8333…, but the
returned `interest_amount` is the rounded 5.83, so the returned value is
not equal to `principal × interest_rate × (termDays / 30)`. -/
theorem flat_monthly_interest_unrounded_cex :
    isOkE (calculateLoanDetails (some prodFlatStd) 100 (some 7)) = true ∧
    interestOf (calculateLoanDetails (some prodFlatStd) 100 (some 7)) =
      583 / 100 ∧
    (583 / 100 : ℚ) ≠ 100 * prodFlatStd.interest_rate * ((7 : ℚ) / 30) := by
  refine ⟨?_, ?_, by norm_num [prodFlatStd]⟩
  · rw [calculateLoanDetails_ok prodFlatStd 100 (some 7) rfl
      (by norm_num [prodFlatStd])]
    rfl
  · rw [calculateLoanDetails_ok prodFlatStd 100 (some 7) rfl
      (by norm_num [prodFlatStd])]
    show toFixed2
        (rawInterest prodFlatStd 100
          (loanTermDaysOf (some 7) prodFlatStd.default_term_days)) = 583 / 100
    rw [show rawInterest prodFlatStd 100
          (loanTermDaysOf (some 7) prodFlatStd.default_term_days) = 35 / 6 by
        norm_num [rawInterest, prodFlatStd, loanTermDaysOf],
      toFixed2_eval (35 / 6) 583 (by norm_num) (by norm_num)]
    norm_num

/-- C2: at the failing input — flat_monthly, rate 0.30, principal 128.35,
term 30 days — the exact interest is 38505/1000 = 38.505, exactly half a
cent, and rounding half-up (the exact-arithmetic `toFixed2`) yields 38.51,
the value the claim requires.  The JavaScript source evaluates
`128.35 * 0.3` in IEEE-754 binary64 as 38.504999999999995, whose
`toFixed(2)` is "38.50", violating the claimed round-half-up behaviour. -/
theorem toFixed_halfcent_divergence :
    (12835 / 100 : ℚ) * prodHalfCent.interest_rate *
        ((loanTermDaysOf (some 30) prodHalfCent.default_term_days : ℚ) / 30) =
      38505 / 1000 ∧
    interestOf
        (calculateLoanDetails (some prodHalfCent) (12835 / 100) (some 30)) =
      3851 / 100 := by
  constructor
  · norm_num [prodHalfCent, loanTermDaysOf]
  · rw [calculateLoanDetails_ok prodHalfCent (12835 / 100) (some 30) rfl
      (by norm_num [prodHalfCent])]
    show toFixed2
        (rawInterest prodHalfCent (12835 / 100)
          (loanTermDaysOf (some 30) prodHalfCent.default_term_days)) =
      3851 / 100
    rw [show rawInterest prodHalfCent (12835 / 100)
          (loanTermDaysOf (some 30) prodHalfCent.default_term_days) =
        38505 / 1000 by norm_num [rawInterest, prodHalfCent, loanTermDaysOf],
      toFixed2_eval (38505 / 1000) 3851 (by norm_num) (by norm_num)]
    norm_num

/-- C3 (amended): on the calculation endpoint, a non-positive principal, a
principal above `max_amount`, or an inactive product each make the request
fail; and a request whose inputs additionally satisfy the validation
middleware — principal between 1.00 and 999999999.99 with at most two
decimal places, term days absent, zero, or an integer in [1, 3650] — on an
active product with principal within `max_amount` succeeds. -/
theorem request_precondition_checks (product : LoanProduct) (p : ℚ)
    (t : Option Int) :
    (p ≤ 0 → isOkE (calculateLoanDetailsRequest (some product) p t) = false) ∧
    (product.max_amount < p →
      isOkE (calculateLoanDetailsRequest (some product) p t) = false) ∧
    (product.is_active = false →
      isOkE (calculateLoanDetailsRequest (some product) p t) = false) ∧
    (validateLoanCalculation p t = true → product.is_active = true →
      p ≤ product.max_amount →
      isOkE (calculateLoanDetailsRequest (some product) p t) = true) := by
  refine ⟨?_, ?_, ?_, ?_⟩
  · intro hp
    cases hres : isOkE (calculateLoanDetailsRequest (some product) p t) with
    | false => rfl
    | true =>
      exfalso
      obtain ⟨hv, -⟩ := request_ok_inv _ _ _ hres
      have h1 := (validate_true_principal p t hv).1
      linarith
  · intro hmax
    cases hres : isOkE (calculateLoanDetailsRequest (some product) p t) with
    | false => rfl
    | true =>
      exfalso
      obtain ⟨-, heq⟩ := request_ok_inv _ _ _ hres
      rw [heq] at hres
      have h2 := (calculateLoanDetails_ok_inv product p t hres).2
      linarith
  · intro hIA
    cases hres : isOkE (calculateLoanDetailsRequest (some product) p t) with
    | false => rfl
    | true =>
      exfalso
      obtain ⟨-, heq⟩ := request_ok_inv _ _ _ hres
      rw [heq] at hres
      have h3 := (calculateLoanDetails_ok_inv product p t hres).1
      rw [hIA] at h3
      exact Bool.noConfusion h3
  · intro hv hA hM
    unfold calculateLoanDetailsRequest
    rw [if_pos hv, calculateLoanDetails_ok product p t hA hM]
    rfl

/-- C3 witness: principal 0 is rejected; principal 1000 on the active
example product succeeds. -/
theorem request_precondition_checks_witness :
    isOkE (calculateLoanDetailsRequest (some prodFlatStd) 0 none) = false ∧
    isOkE (calculateLoanDetailsRequest (some prodFlatStd) 1000 none) = true := by
  constructor
  · exact (request_precondition_checks prodFlatStd 0 none).1 le_rfl
  · refine (request_precondition_checks prodFlatStd 1000 none).2.2.2 ?_ rfl
      (by norm_num [prodFlatStd])
    simp only [validateLoanCalculation, validPrincipalAmount, validTermField]
    norm_num

/-- C3 counterexample to the literal claim: principal 0.50 is strictly
positive, within `max_amount`, and the product is active, yet the request
fails, because the validation middleware requires a principal of at least
1.00. -/
theorem request_precondition_checks_cex :
    (0 : ℚ) < 1 / 2 ∧ (1 / 2 : ℚ) ≤ prodFlatStd.max_amount ∧
    prodFlatStd.is_active = true ∧
    isOkE (calculateLoanDetailsRequest (some prodFlatStd) (1 / 2) none) =
      false := by
  refine ⟨by norm_num, by norm_num [prodFlatStd], rfl, ?_⟩
  have hv : validateLoanCalculation (1 / 2) none = false := by
    simp only [validateLoanCalculation, validPrincipalAmount, validTermField]
    norm_num
  unfold calculateLoanDetailsRequest
  rw [hv]
  rfl

/-- C4: for every active `reducing_balance` product and principal within
`max_amount`, `calculateLoanDetails` computes the interest as
`principal × (interest_rate / 365) × termDays` — the simplified flat
daily-rate approximation — rounded to two decimal places on return. -/
theorem reducing_balance_interest (product : LoanProduct) (p : ℚ)
    (t : Option Int) (hty : product.interest_type = "reducing_balance")
    (hA : product.is_active = true) (hM : p ≤ product.max_amount) :
    isOkE (calculateLoanDetails (some product) p t) = true ∧
    interestOf (calculateLoanDetails (some product) p t) =
      toFixed2 (p * (product.interest_rate / 365) *
        (loanTermDaysOf t product.default_term_days : ℚ)) := by
  rw [calculateLoanDetails_ok product p t hA hM]
  unfold rawInterest
  rw [if_neg (by simp [hty]), if_pos hty]
  exact ⟨rfl, rfl⟩

/-- C4 witness: a reducing-balance product with rate 0.365 (daily rate
0.001) over its default 100-day term turns principal 1000 into interest
100.00. -/
theorem reducing_balance_interest_witness :
    isOkE (calculateLoanDetails (some prodReduce) 1000 none) = true ∧
    interestOf (calculateLoanDetails (some prodReduce) 1000 none) = 100 := by
  have h := reducing_balance_interest prodReduce 1000 none rfl rfl
    (by norm_num [prodReduce])
  refine ⟨h.1, ?_⟩
  rw [h.2,
    show 1000 * (prodReduce.interest_rate / 365) *
        (loanTermDaysOf none prodReduce.default_term_days : ℚ) =
      ((10000 : ℤ) : ℚ) / 100 by norm_num [prodReduce, loanTermDaysOf],
    toFixed2_cents]
  norm_num

/-- C9: a term-days argument of `null`/`undefined` (`none`) or `0` makes
`calculateLoanDetails` use the product's `default_term_days`: the call with
term 0 returns exactly the same result as the call with no term, succeeds,
resolves `term_days` to the product default, and the middleware's
`checkFalsy` option lets the 0 through rather than rejecting it. -/
theorem term_zero_falls_back (product : LoanProduct) (p : ℚ)
    (hA : product.is_active = true) (hM : p ≤ product.max_amount) :
    calculateLoanDetails (some product) p (some 0) =
      calculateLoanDetails (some product) p none ∧
    isOkE (calculateLoanDetails (some product) p (some 0)) = true ∧
    termOf (calculateLoanDetails (some product) p (some 0)) =
      product.default_term_days ∧
    validTermField (some 0) = true := by
  have hterm : loanTermDaysOf (some 0) product.default_term_days =
      loanTermDaysOf none product.default_term_days := by
    simp [loanTermDaysOf]
  refine ⟨?_, ?_, ?_, rfl⟩
  · rw [calculateLoanDetails_ok product p (some 0) hA hM,
      calculateLoanDetails_ok product p none hA hM, hterm]
  · rw [calculateLoanDetails_ok product p (some 0) hA hM]
    rfl
  · rw [calculateLoanDetails_ok product p (some 0) hA hM]
    show loanTermDaysOf (some 0) product.default_term_days =
      product.default_term_days
    simp [loanTermDaysOf]

/-- C9 witness: term 0 on the example product behaves exactly like no term
at all and resolves to the 60-day default. -/
theorem term_zero_falls_back_witness :
    calculateLoanDetails (some prodFlatStd) 1000 (some 0) =
      calculateLoanDetails (some prodFlatStd) 1000 none ∧
    isOkE (calculateLoanDetails (some prodFlatStd) 1000 (some 0)) = true ∧
    termOf (calculateLoanDetails (some prodFlatStd) 1000 (some 0)) =
      prodFlatStd.default_term_days ∧
    validTermField (some 0) = true :=
  term_zero_falls_back prodFlatStd 1000 rfl (by norm_num [prodFlatStd])

/-- C10: a product row whose `interest_type` is neither `flat_monthly` nor
`reducing_balance` still succeeds: the interest stays 0 and the total due
equals the principal (stated for principals with at most two decimal
places, which round to themselves). -/
theorem other_interest_type_zero (product : LoanProduct) (p : ℚ)
    (t : Option Int) (h1 : product.interest_type ≠ "flat_monthly")
    (h2 : product.interest_type ≠ "reducing_balance")
    (hA : product.is_active = true) (hM : p ≤ product.max_amount)
    (hp : TwoDecimals p) :
    isOkE (calculateLoanDetails (some product) p t) = true ∧
    interestOf (calculateLoanDetails (some product) p t) = 0 ∧
    totalDueOf (calculateLoanDetails (some product) p t) = p := by
  rw [calculateLoanDetails_ok product p t hA hM]
  have hraw :
      rawInterest product p (loanTermDaysOf t product.default_term_days) = 0 := by
    unfold rawInterest
    rw [if_neg h1, if_neg h2]
  refine ⟨rfl, ?_, ?_⟩
  · show toFixed2
        (rawInterest product p (loanTermDaysOf t product.default_term_days)) = 0
    rw [hraw, show (0 : ℚ) = ((0 : ℤ) : ℚ) / 100 by norm_num, toFixed2_cents]
  · show toFixed2
        (p + rawInterest product p (loanTermDaysOf t product.default_term_days)) = p
    rw [hraw, add_zero, twoDecimals_rep p hp]
    exact toFixed2_cents _

/-- C10 witness: a product with `interest_type = "balloon"` and principal
250 succeeds with zero interest and total due 250. -/
theorem other_interest_type_zero_witness :
    isOkE (calculateLoanDetails (some prodOther) 250 none) = true ∧
    interestOf (calculateLoanDetails (some prodOther) 250 none) = 0 ∧
    totalDueOf (calculateLoanDetails (some prodOther) 250 none) = 250 :=
  other_interest_type_zero prodOther 250 none (by simp [prodOther])
    (by simp [prodOther]) rfl (by norm_num [prodOther])
    (by
      rw [show (250 : ℚ) = ((25000 : ℤ) : ℚ) / 100 by norm_num]
      exact twoDecimals_div_hundred 25000)

/-- C5: every successful calculation-endpoint result satisfies
`total_due_amount = principal_amount + interest_amount` exactly, and all
three returned amounts carry at most two decimal places. -/
theorem total_due_is_sum (product : LoanProduct) (p : ℚ) (t : Option Int)
    (h : isOkE (calculateLoanDetailsRequest (some product) p t) = true) :
    totalDueOf (calculateLoanDetailsRequest (some product) p t) =
      principalOf (calculateLoanDetailsRequest (some product) p t) +
        interestOf (calculateLoanDetailsRequest (some product) p t) ∧
    TwoDecimals (principalOf (calculateLoanDetailsRequest (some product) p t)) ∧
    TwoDecimals (interestOf (calculateLoanDetailsRequest (some product) p t)) ∧
    TwoDecimals (totalDueOf (calculateLoanDetailsRequest (some product) p t)) := by
  obtain ⟨hv, heq⟩ := request_ok_inv _ _ _ h
  rw [heq] at h ⊢
  obtain ⟨hA, hM⟩ := calculateLoanDetails_ok_inv product p t h
  rw [calculateLoanDetails_ok product p t hA hM]
  obtain ⟨-, -, hp⟩ := validate_true_principal p t hv
  refine ⟨?_, hp, twoDecimals_toFixed2 _, twoDecimals_toFixed2 _⟩
  show toFixed2
      (p + rawInterest product p (loanTermDaysOf t product.default_term_days)) =
    p + toFixed2
      (rawInterest product p (loanTermDaysOf t product.default_term_days))
  rw [twoDecimals_rep p hp]
  exact toFixed2_add_cents _ _

/-- C5 witness: the example request (principal 1000, flat_monthly rate
0.25, default 60-day term) returns a total due equal to the sum of the
returned principal and interest, all in whole cents. -/
theorem total_due_is_sum_witness :
    totalDueOf (calculateLoanDetailsRequest (some prodFlatStd) 1000 none) =
      principalOf (calculateLoanDetailsRequest (some prodFlatStd) 1000 none) +
        interestOf (calculateLoanDetailsRequest (some prodFlatStd) 1000 none) ∧
    TwoDecimals
      (principalOf (calculateLoanDetailsRequest (some prodFlatStd) 1000 none)) ∧
    TwoDecimals
      (interestOf (calculateLoanDetailsRequest (some prodFlatStd) 1000 none)) ∧
    TwoDecimals
      (totalDueOf (calculateLoanDetailsRequest (some prodFlatStd) 1000 none)) := by
  apply total_due_is_sum prodFlatStd 1000 none
  have hv : validateLoanCalculation 1000 none = true := by
    simp only [validateLoanCalculation, validPrincipalAmount, validTermField]
    norm_num
  unfold calculateLoanDetailsRequest
  rw [if_pos hv,
    calculateLoanDetails_ok prodFlatStd 1000 none rfl (by norm_num [prodFlatStd])]
  rfl

/-- C6: every successful allocation splits the payment exactly:
penalty + interest + principal + overpayment equals the amount paid, with
no rounding drift. -/
theorem allocation_completeness (outstanding : Outstanding) (amountPaid : ℚ)
    (a : Allocation) (h : allocate outstanding amountPaid = .ok a) :
    a.allocPenalty + a.allocInterest + a.allocPrincipal + a.overpayment =
      amountPaid := by
  unfold allocate at h
  split at h
  · exact absurd h (by simp)
  · simp only [Except.ok.injEq] at h
    subst h
    dsimp only
    ring

/-- C6 witness: the spec's example — outstanding {50, 200, 800}, payment
300 — allocates {50, 200, 50, 0}, and the four parts sum back to 300. -/
theorem allocation_completeness_witness :
    allocate { penalty := 50, interest := 200, principal := 800 } 300 =
      .ok allocEx ∧
    allocEx.allocPenalty + allocEx.allocInterest + allocEx.allocPrincipal +
        allocEx.overpayment = 300 := by
  have heval :
      allocate { penalty := 50, interest := 200, principal := 800 } 300 =
        .ok allocEx := by
    unfold allocate allocEx
    rw [if_neg (by norm_num)]
    norm_num [min_def, max_def]
  exact ⟨heval, allocation_completeness _ _ _ heval⟩

/-- A successful posting appends exactly one transaction, and that
transaction is balanced. -/
lemma post_ok_balanced (ledger : List VaultTxn) (ty : String)
    (entries : List EntryInput) (l' : List VaultTxn)
    (h : post ledger ty entries = .ok l') :
    l' = ledger ++ [{ transaction_type := ty, entries := entries }] ∧
    sumSide EntryType.debit entries = sumSide EntryType.credit entries := by
  unfold post at h
  split at h
  · rename_i hchecks
    simp only [Except.ok.injEq] at h
    refine ⟨h.symm, ?_⟩
    unfold postChecks at hchecks
    simp only [Bool.and_eq_true, decide_eq_true_eq] at hchecks
    exact hchecks.2
  · exact absurd h (by simp)

/-- Folding posting attempts preserves the balance invariant of the ledger. -/
lemma runPosts_balanced_aux (inputs : List (String × List EntryInput)) :
    ∀ ledger : List VaultTxn,
      (∀ txn ∈ ledger,
        sumSide EntryType.debit txn.entries =
          sumSide EntryType.credit txn.entries) →
      ∀ txn ∈ inputs.foldl (fun l i => postRun l i.1 i.2) ledger,
        sumSide EntryType.debit txn.entries =
          sumSide EntryType.credit txn.entries := by
  induction inputs with
  | nil => exact fun ledger h txn hmem => h txn hmem
  | cons i rest ih =>
    intro ledger h txn hmem
    refine ih (postRun ledger i.1 i.2) ?_ txn hmem
    intro txn' hmem'
    unfold postRun at hmem'
    cases hpost : post ledger i.1 i.2 with
    | error e =>
      rw [hpost] at hmem'
      exact h txn' hmem'
    | ok l' =>
      rw [hpost] at hmem'
      obtain ⟨hl, hbal⟩ := post_ok_balanced ledger i.1 i.2 l' hpost
      subst hl
      rcases List.mem_append.mp hmem' with hold | hnew
      · exact h txn' hold
      · rw [List.mem_singleton.mp hnew]
        exact hbal

/-- C7: after any sequence of posting attempts from an empty ledger, every
recorded vault transaction balances exactly (Σ debit = Σ credit); an
unbalanced posting is rejected as a ConstraintViolation with the ledger
unchanged. -/
theorem vault_transactions_balanced :
    (∀ inputs : List (String × List EntryInput),
      ∀ txn ∈ runPosts inputs,
        sumSide EntryType.debit txn.entries =
          sumSide EntryType.credit txn.entries) ∧
    ∀ (ledger : List VaultTxn) (ty : String) (entries : List EntryInput),
      sumSide EntryType.debit entries ≠ sumSide EntryType.credit entries →
      post ledger ty entries = .error "ConstraintViolation" ∧
      postRun ledger ty entries = ledger := by
  constructor
  · intro inputs txn hmem
    exact runPosts_balanced_aux inputs [] (by intro u hu; simp at hu) txn hmem
  · intro ledger ty entries hne
    have hpost : post ledger ty entries = .error "ConstraintViolation" := by
      have hchecks : postChecks entries = false := by
        unfold postChecks
        rw [decide_eq_false hne]
        simp
      unfold post
      rw [hchecks]
      rfl
    refine ⟨hpost, ?_⟩
    unfold postRun
    rw [hpost]

/-- C7 witness: a one-sided posting (a single debit of 5, no credit) is
rejected and leaves the empty ledger empty. -/
theorem vault_transactions_balanced_witness :
    post [] "loan_repayment"
        [{ vault_account_id := 1, entry_type := EntryType.debit, amount := 5 }] =
      .error "ConstraintViolation" ∧
    postRun [] "loan_repayment"
        [{ vault_account_id := 1, entry_type := EntryType.debit, amount := 5 }] =
      [] :=
  vault_transactions_balanced.2 [] "loan_repayment"
    [{ vault_account_id := 1, entry_type := EntryType.debit, amount := 5 }]
    (by simp [sumSide])

/-- Replaying one more entry adds its signed amount. -/
lemma replayBalance_append (es : List VEntry) (e : VEntry) :
    replayBalance (es ++ [e]) = replayBalance es + signedAmount e := by
  unfold replayBalance
  rw [List.foldl_append]
  rfl

/-- Entry insertion preserves the running-balance invariant. -/
lemma applyEntries_replay (ops : List (EntryType × ℚ)) :
    ∀ acct : VaultAccount,
      acct.current_balance = replayBalance acct.entries →
      (applyEntries acct ops).current_balance =
        replayBalance (applyEntries acct ops).entries := by
  induction ops with
  | nil => exact fun acct h => h
  | cons op rest ih =>
    intro acct h
    have hstep : (insertEntry acct op.1 op.2).current_balance =
        replayBalance (insertEntry acct op.1 op.2).entries := by
      unfold insertEntry
      dsimp only
      rw [replayBalance_append, ← h]
      rfl
    exact ih (insertEntry acct op.1 op.2) hstep

/-- C8: after any sequence of entry creations against a fresh account, the
`current_balance` maintained through the `update_vault_balance` trigger
equals the balance obtained by replaying all the account's entries in
creation order and summing their signed amounts. -/
theorem current_balance_replays (ops : List (EntryType × ℚ)) :
    (applyEntries initialVaultAccount ops).current_balance =
      replayBalance (applyEntries initialVaultAccount ops).entries :=
  applyEntries_replay ops initialVaultAccount rfl

end LoanEngine
